import Mathlib

/-!
Shallow embedding of `src/components/sentry/src/lib.rs` (the foxbox sentry
camera adapter).

The adapter owns two mutex-guarded state slots:
  `livestreamer : Mutex<Option<Html5Video>>` and
  `recorder : Mutex<Option<Arc<Mutex<gst::Pipeline>>>>`,
and implements `fetch_values` / `send_values`, routing each request by
channel id.  GStreamer itself is external: we model it as an environment
`GstEnv` of deterministic oracles for the fallible gst calls the adapter
makes (`Pipeline::new_from_str`, `pipeline.bus()`, `get_by_name`,
the `current-port` read, `set_null_state`).  Pipeline, bus and element
handles are modelled as `Nat` identifiers.

Rust panics (`unwrap`, `expect`) abort the request thread; we model them
with the `PRes.panic` constructor, distinct from returning an `Err` value.

Ghost instrumentation: `AdapterState` carries three counters
(`liveStarts`, `recordStarts`, `stopCalls`) incremented exactly where the
Rust code invokes the engine-start path (the `Html5Video::new` body, the
record-pipeline construction) or the engine-stop path (`set_null_state`).
They let us state the call-count properties of the spec without changing
any observable behaviour.

The GStreamer global init latch (`lazy_static` unit read) has no
observable effect in this model and no claim depends on it, so it is
omitted.
-/

/-- Routing operations, from foxbox_taxonomy `Operation` (only the two
variants this adapter uses). -/
inductive Operation where
  | fetch
  | send
deriving DecidableEq, Repr

/-- Modelled from the spec: the error taxonomy of foxbox_taxonomy (not under
src/).  `operationNotSupported` mirrors `Error::OperationNotSupported(op, id)`;
`parseError` mirrors `Error::ParseError(ParseError::type_error(description,
path, expected))`; `valueTypeMismatch` is the decode failure surfaced by
`Value::cast` (spec: a write supplied a value that does not decode to the
expected variant); `internalError` stands for a low-level gst error value. -/
inductive Error where
  | operationNotSupported (op : Operation) (id : String)
  | parseError (description : String) (path : String) (expected : String)
  | valueTypeMismatch (expected : String)
  | internalError (msg : String)
deriving DecidableEq, Repr

/-- Outcome of a Rust computation that may panic: `panic` models an
`unwrap`/`expect` abort (the process crashes, no value is returned),
`ok` models normal return of a value. -/
inductive PRes (α : Type) where
  | panic (msg : String)
  | ok (val : α)
deriving Repr

/-- Minimal JSON values, enough for the serialized shape used in lib.rs:
`vec![("port", JSON::U64(port))].to_json()`. -/
inductive JSON where
  | u64 (n : Nat)
  | obj (fields : List (String × JSON))

/-- `OnOff` from foxbox_taxonomy values: the two-variant toggle used by the
recording channel. -/
inductive OnOff where
  | on
  | off
deriving DecidableEq, Repr

/-- `struct Html5Video { port: u16 }`: the live-stream descriptor.  The u16
port is a `Nat`; every port produced by the code is reduced mod 65536. -/
structure Html5Video where
  port : Nat
deriving DecidableEq, Repr

/-- The dynamic `Value` payloads this adapter produces or consumes: an
`Html5Video` descriptor or an `OnOff` toggle. -/
inductive Value where
  | html5 (v : Html5Video)
  | onOff (b : OnOff)
deriving DecidableEq, Repr

/-- Modelled from the spec: foxbox_taxonomy `Value::cast::<OnOff>` (not under
src/).  Decoding succeeds exactly on an `OnOff` payload; any other payload
surfaces a type-mismatch error (`ValueTypeMismatch`). -/
def Value.cast : Value → Except Error OnOff
  | .onOff b => .ok b
  | .html5 _ => .error (.valueTypeMismatch "OnOff")

/-- The deterministic oracle for the external GStreamer library.  Pipelines,
buses and elements are `Nat` handles.  `newFromStr` is
`gst::Pipeline::new_from_str` (`none` = construction failure, which lib.rs
`unwrap`s); `busOf` is `pipeline.bus()` (`none` = failure, which lib.rs
`expect`s); `getByName` is `pipeline.get_by_name` (`none` = element missing,
which lib.rs `unwrap`s); `currentPort` is the u16 `current-port` property
read; `setNullState` is `pipeline.set_null_state()` whose result lib.rs
discards with a wildcard let binding. -/
structure GstEnv where
  newFromStr : String → Option Nat
  busOf : Nat → Option Nat
  getByName : Nat → String → Option Nat
  currentPort : Nat → Nat
  setNullState : Nat → Except Error Unit

/-- The adapter state: the contents of the two mutex slots, plus the ghost
call counters described in the file header. -/
structure AdapterState where
  livestreamer : Option Html5Video
  recorder : Option Nat
  liveStarts : Nat
  recordStarts : Nat
  stopCalls : Nat
deriving DecidableEq, Repr

/-- Channel id declared in `Adapter::init`:
`Id::new("sentry@foxlink.mozilla.org/livestream/html5")`. -/
def idLive : String := "sentry@foxlink.mozilla.org/livestream/html5"

/-- Channel id declared in `Adapter::init`:
`Id::new("sentry@foxlink.mozilla.org/record/ogg")`. -/
def idRecord : String := "sentry@foxlink.mozilla.org/record/ogg"

/-- The live pipeline spec built in `Html5Video::new`:
`format!("{} ! {} ! {} ! {}", spec_capture, spec_decode, spec_reencode,
spec_stream)` with the four constant stages. -/
def liveSpec : String :=
  "wrappercamerabinsrc mode=2 ! videoconvert ! videoscale ! video/x-raw, width=320, height=240 ! theoraenc ! oggmux ! tcpserversink host=127.0.0.1 port=0 name=server"

/-- The record pipeline spec built in the `OnOff::On` branch of
`send_values`: same capture/decode/reencode stages, with a
`filesink location="<storage_root>/record.ogg"` sink
(`storage_root.join("record.ogg")` modelled as string concatenation). -/
def recordSpec (storage_root : String) : String :=
  "wrappercamerabinsrc mode=2 ! videoconvert ! videoscale ! video/x-raw, width=320, height=240 ! theoraenc ! oggmux ! filesink location=\"" ++ storage_root ++ "/record.ogg\""

/-- `Html5Video::new`: build the live spec, construct the pipeline
(`unwrap`: failure panics), extract the bus (`expect`: failure panics),
then in the spawned thread look up the sink element named `server`
(`unwrap`: failure panics the thread, which drops the channel sender and
makes the blocking `rx.recv().unwrap()` on the calling thread panic) and
read back the OS-assigned port, which the calling thread receives before
returning `Ok(Html5Video { port })`.  The return type of the Rust function
is `Result<Html5Video, Error>`, hence the `Except` inside `PRes`. -/
def Html5Video.new (env : GstEnv) : PRes (Except Error Html5Video) :=
  match env.newFromStr liveSpec with
  | none => .panic "called Option::unwrap() on a None value"
  | some pipeline =>
    match env.busOf pipeline with
    | none => .panic "[sentry] Couldn't extract bus from pipeline"
    | some _bus =>
      match env.getByName pipeline "server" with
      | none => .panic "called Result::unwrap() on an Err value"
      | some server =>
        .ok (.ok { port := env.currentPort server % 65536 })

/-- One entry of `Adapter::fetch_values`: route by channel id.
Live-stream id: under the `livestreamer` mutex, return the cached
descriptor if present, otherwise call `Html5Video::new`, cache and return
the descriptor on success, and propagate the error (leaving the slot
empty) on failure.  Recording id: report `Off`/`On` from the `recorder`
slot.  Any other id: `OperationNotSupported(Fetch, id)`. -/
def fetchOne (env : GstEnv) (st : AdapterState) (id : String) :
    PRes (AdapterState × (String × Except Error (Option Value))) :=
  if id = idLive then
    match st.livestreamer with
    | some video => .ok (st, (id, .ok (some (.html5 video))))
    | none =>
      match Html5Video.new env with
      | .panic m => .panic m
      | .ok (.ok video) =>
          .ok ({ st with livestreamer := some video, liveStarts := st.liveStarts + 1 },
               (id, .ok (some (.html5 video))))
      | .ok (.error e) =>
          .ok ({ st with liveStarts := st.liveStarts + 1 }, (id, .error e))
  else if id = idRecord then
    match st.recorder with
    | none => .ok (st, (id, .ok (some (.onOff .off))))
    | some _ => .ok (st, (id, .ok (some (.onOff .on))))
  else
    .ok (st, (id, .error (.operationNotSupported .fetch id)))

/-- `Adapter::fetch_values`: process the id list in order, threading the
adapter state; a panic in any entry aborts the whole request thread. -/
def fetch_values (env : GstEnv) (st : AdapterState) (ids : List String) :
    PRes (AdapterState × List (String × Except Error (Option Value))) :=
  match ids with
  | [] => .ok (st, [])
  | id :: rest =>
    match fetchOne env st id with
    | .panic m => .panic m
    | .ok (st1, entry) =>
      match fetch_values env st1 rest with
      | .panic m => .panic m
      | .ok (st2, out) => .ok (st2, entry :: out)

/-- One entry of `Adapter::send_values`: route by channel id.
Recording id: cast the value to `OnOff` (failure is reported for this
entry, state untouched).  `On`: if already recording return success,
otherwise build the record spec, construct the pipeline (`unwrap`:
failure panics), extract the bus (`expect`: failure panics), store the
pipeline handle and return success.  `Off`: `take()` the slot (clearing
it to `None` first), then call `set_null_state` on the taken pipeline,
discarding its result, and return success; if the slot was already empty
return success without any stop call.  Any other id:
`OperationNotSupported(Send, id)`. -/
def sendOne (env : GstEnv) (storage_root : String) (st : AdapterState)
    (id : String) (v : Value) :
    PRes (AdapterState × (String × Except Error Unit)) :=
  if id = idRecord then
    match v.cast with
    | .error e => .ok (st, (id, .error e))
    | .ok .on =>
      match st.recorder with
      | some _ => .ok (st, (id, .ok ()))
      | none =>
        match env.newFromStr (recordSpec storage_root) with
        | none => .panic "called Option::unwrap() on a None value"
        | some pipeline =>
          match env.busOf pipeline with
          | none => .panic "[sentry] Couldn't extract bus from pipeline"
          | some _bus =>
            .ok ({ st with recorder := some pipeline,
                           recordStarts := st.recordStarts + 1 },
                 (id, .ok ()))
    | .ok .off =>
      match st.recorder with
      | some pipeline =>
        let _stopResult := env.setNullState pipeline
        .ok ({ st with recorder := none, stopCalls := st.stopCalls + 1 },
             (id, .ok ()))
      | none => .ok (st, (id, .ok ()))
  else
    .ok (st, (id, .error (.operationNotSupported .send id)))

/-- `Adapter::send_values`: process the (id, value) pairs in order (the Rust
`HashMap::drain` yields them in some order; any fixed order is an instance
of this model), threading the adapter state. -/
def send_values (env : GstEnv) (storage_root : String) (st : AdapterState)
    (kvs : List (String × Value)) :
    PRes (AdapterState × List (String × Except Error Unit)) :=
  match kvs with
  | [] => .ok (st, [])
  | kv :: rest =>
    match sendOne env storage_root st kv.1 kv.2 with
    | .panic m => .panic m
    | .ok (st1, entry) =>
      match send_values env storage_root st1 rest with
      | .panic m => .panic m
      | .ok (st2, out) => .ok (st2, entry :: out)

/-- Iterated live fetches: `n` successive `fetch_values` requests each
containing just the live-stream id, collecting the per-request results. -/
def iterFetchLive (env : GstEnv) (st : AdapterState) :
    Nat → PRes (AdapterState × List (Except Error (Option Value)))
  | 0 => .ok (st, [])
  | n + 1 =>
    match fetchOne env st idLive with
    | .panic m => .panic m
    | .ok (st1, entry) =>
      match iterFetchLive env st1 n with
      | .panic m => .panic m
      | .ok (st2, rest) => .ok (st2, entry.2 :: rest)

/-- `<Html5Video as Data>::description()`. -/
def Html5Video.description : String :=
  "Html5 video stream (for testing purposes only)"

/-- `<Html5Video as Data>::parse`: always fails with
`ParseError::type_error(description, path, "A value that supports
deserialization")` — the descriptor cannot be deserialized from external
input.  The `BinarySource` argument is modelled as `Unit`. -/
def Html5Video.parse (path : String) (_ : JSON) (_ : Unit) :
    Except Error Html5Video :=
  .error (.parseError Html5Video.description path
    "A value that supports deserialization")

/-- `<Html5Video as Data>::serialize`: always succeeds with the object
`{"port": port as u64}`.  The u64 cast of the port is mod 2^64; the
`BinaryTarget` argument is modelled as `Unit`. -/
def Html5Video.serialize (source : Html5Video) (_ : Unit) :
    Except Error JSON :=
  .ok (.obj [("port", .u64 (source.port % 18446744073709551616))])

/-- `impl PartialEq for Html5Video`: `eq` ignores both arguments and
returns `false` — instances cannot be compared. -/
def Html5Video.eq (_ _ : Html5Video) : Bool :=
  false

/-- The initial adapter state from `Adapter::init`: both mutex slots hold
`None`, counters zero. -/
def st0 : AdapterState :=
  { livestreamer := none, recorder := none,
    liveStarts := 0, recordStarts := 0, stopCalls := 0 }

/-- A healthy gst oracle: every call succeeds, the live sink reports
port 5004, stopping succeeds. -/
def envOk : GstEnv :=
  { newFromStr := fun _ => some 0
    busOf := fun _ => some 0
    getByName := fun _ _ => some 0
    currentPort := fun _ => 5004
    setNullState := fun _ => .ok () }

/-- A gst oracle whose `set_null_state` reports a failure. -/
def envStopFail : GstEnv :=
  { envOk with setNullState := fun _ => .error (.internalError "stop failed") }

/-- A gst oracle where pipeline construction fails for every spec string. -/
def envNoPipeline : GstEnv :=
  { envOk with newFromStr := fun _ => none }

/-- A gst oracle where the pipeline is constructed but the bus cannot be
extracted. -/
def envNoBus : GstEnv :=
  { envOk with busOf := fun _ => none }

/-- A state in which recording is on: the recorder slot holds pipeline
handle 7. -/
def stRec : AdapterState :=
  { livestreamer := none, recorder := some 7,
    liveStarts := 0, recordStarts := 1, stopCalls := 0 }

/-- The state after a first successful live fetch under `envOk`: the
descriptor for port 5004 is cached and the engine-start counter is 1. -/
def stLive : AdapterState :=
  { st0 with livestreamer := some { port := 5004 }, liveStarts := 1 }

/-- The state after a first successful recording start under `envOk`
from `st0`. -/
def stRecOk : AdapterState :=
  { st0 with recorder := some 0, recordStarts := 1 }

/-! ## Helper lemmas -/

/-- `Html5Video::new` either panics or returns `Ok`: every internal failure
point is an `unwrap`/`expect`, so the `Err` return is never produced. -/
lemma new_panic_or_ok (env : GstEnv) :
    (∃ m, Html5Video.new env = .panic m) ∨
      (∃ v, Html5Video.new env = .ok (.ok v)) := by
  cases hn : env.newFromStr liveSpec with
  | none =>
    exact Or.inl ⟨"called Option::unwrap() on a None value",
      by simp [Html5Video.new, hn]⟩
  | some p =>
    cases hb : env.busOf p with
    | none =>
      exact Or.inl ⟨"[sentry] Couldn't extract bus from pipeline",
        by simp [Html5Video.new, hn, hb]⟩
    | some b =>
      cases hg : env.getByName p "server" with
      | none =>
        exact Or.inl ⟨"called Result::unwrap() on an Err value",
          by simp [Html5Video.new, hn, hb, hg]⟩
      | some s =>
        exact Or.inr ⟨{ port := env.currentPort s % 65536 },
          by simp [Html5Video.new, hn, hb, hg]⟩

lemma fetchOne_warm (env : GstEnv) (st : AdapterState) (v : Html5Video)
    (h : st.livestreamer = some v) :
    fetchOne env st idLive = .ok (st, (idLive, .ok (some (.html5 v)))) := by
  simp [fetchOne, h]

lemma fetchOne_record (env : GstEnv) (st : AdapterState) :
    fetchOne env st idRecord =
      .ok (st, (idRecord, .ok (some (.onOff
        (match st.recorder with | none => .off | some _ => .on))))) := by
  have h : idRecord ≠ idLive := by decide
  cases hr : st.recorder <;> simp [fetchOne, h, hr]

lemma fetchOne_unknown (env : GstEnv) (st : AdapterState) (id : String)
    (h1 : id ≠ idLive) (h2 : id ≠ idRecord) :
    fetchOne env st id =
      .ok (st, (id, .error (.operationNotSupported .fetch id))) := by
  simp [fetchOne, h1, h2]

lemma fetchOne_fst (env : GstEnv) (st : AdapterState) (id : String)
    {st1 : AdapterState} {e : String × Except Error (Option Value)}
    (hf : fetchOne env st id = .ok (st1, e)) : e.1 = id := by
  unfold fetchOne at hf
  repeat' split at hf
  all_goals simp_all
  all_goals rw [← hf.2]

lemma fetchOne_recorder_eq (env : GstEnv) (st : AdapterState) (id : String)
    {st1 : AdapterState} {e : String × Except Error (Option Value)}
    (hf : fetchOne env st id = .ok (st1, e)) : st1.recorder = st.recorder := by
  unfold fetchOne at hf
  repeat' split at hf
  all_goals simp_all
  all_goals rw [← hf.1]

lemma fetchOne_nonlive_state (env : GstEnv) (st : AdapterState) (id : String)
    (h : id ≠ idLive) {st1 : AdapterState}
    {e : String × Except Error (Option Value)}
    (hf : fetchOne env st id = .ok (st1, e)) : st1 = st := by
  by_cases h2 : id = idRecord
  · subst h2
    rw [fetchOne_record env st] at hf
    simp at hf
    exact hf.1.symm
  · rw [fetchOne_unknown env st id h h2] at hf
    simp at hf
    exact hf.1.symm

lemma fetchOne_live_congr (env : GstEnv) (st stA : AdapterState)
    (h : st.livestreamer = stA.livestreamer) {st1 : AdapterState}
    {e : String × Except Error (Option Value)}
    (hf : fetchOne env st idLive = .ok (st1, e)) :
    ∃ s2, fetchOne env stA idLive = .ok (s2, e) := by
  cases hl : st.livestreamer with
  | some v =>
    have hA : stA.livestreamer = some v := h.symm.trans hl
    rw [fetchOne_warm env st v hl] at hf
    simp at hf
    exact ⟨stA, by rw [fetchOne_warm env stA v hA, hf.2]⟩
  | none =>
    have hA : stA.livestreamer = none := h.symm.trans hl
    rcases new_panic_or_ok env with ⟨m, hm⟩ | ⟨v, hv⟩
    · simp [fetchOne, hl, hm] at hf
    · simp [fetchOne, hl, hv] at hf
      refine ⟨{ stA with livestreamer := some v, liveStarts := stA.liveStarts + 1 }, ?_⟩
      simp [fetchOne, hA, hv, ← hf.2]

lemma sendOne_unknown (env : GstEnv) (root : String) (st : AdapterState)
    (id : String) (v : Value) (h : id ≠ idRecord) :
    sendOne env root st id v =
      .ok (st, (id, .error (.operationNotSupported .send id))) := by
  simp [sendOne, h]

lemma sendOne_nonrecord_state (env : GstEnv) (root : String)
    (st : AdapterState) (id : String) (v : Value) (h : id ≠ idRecord)
    {st1 : AdapterState} {e : String × Except Error Unit}
    (hf : sendOne env root st id v = .ok (st1, e)) : st1 = st := by
  rw [sendOne_unknown env root st id v h] at hf
  simp at hf
  exact hf.1.symm

lemma sendOne_record_congr (env : GstEnv) (root : String)
    (st stA : AdapterState) (v : Value) (h : st.recorder = stA.recorder)
    {st1 : AdapterState} {e : String × Except Error Unit}
    (hf : sendOne env root st idRecord v = .ok (st1, e)) :
    ∃ s2, sendOne env root stA idRecord v = .ok (s2, e) := by
  cases v with
  | html5 w =>
    simp [sendOne, Value.cast] at hf
    exact ⟨stA, by simp [sendOne, Value.cast, ← hf.2]⟩
  | onOff b =>
    cases b
    · -- the On variant
      cases hr : st.recorder with
      | some p =>
        have hA : stA.recorder = some p := h.symm.trans hr
        simp [sendOne, Value.cast, hr] at hf
        exact ⟨stA, by simp [sendOne, Value.cast, hA, ← hf.2]⟩
      | none =>
        have hA : stA.recorder = none := h.symm.trans hr
        cases hn : env.newFromStr (recordSpec root) with
        | none => simp [sendOne, Value.cast, hr, hn] at hf
        | some p =>
          cases hb : env.busOf p with
          | none => simp [sendOne, Value.cast, hr, hn, hb] at hf
          | some bb =>
            simp [sendOne, Value.cast, hr, hn, hb] at hf
            refine ⟨{ stA with recorder := some p, recordStarts := stA.recordStarts + 1 }, ?_⟩
            simp [sendOne, Value.cast, hA, hn, hb, ← hf.2]
    · -- the Off variant
      cases hr : st.recorder with
      | some p =>
        have hA : stA.recorder = some p := h.symm.trans hr
        simp [sendOne, Value.cast, hr] at hf
        refine ⟨{ stA with recorder := none, stopCalls := stA.stopCalls + 1 }, ?_⟩
        simp [sendOne, Value.cast, hA, ← hf.2]
      | none =>
        have hA : stA.recorder = none := h.symm.trans hr
        simp [sendOne, Value.cast, hr] at hf
        exact ⟨stA, by simp [sendOne, Value.cast, hA, ← hf.2]⟩

lemma sendOne_fst (env : GstEnv) (root : String) (st : AdapterState)
    (id : String) (v : Value) {st1 : AdapterState}
    {e : String × Except Error Unit}
    (hf : sendOne env root st id v = .ok (st1, e)) : e.1 = id := by
  unfold sendOne at hf
  repeat' split at hf
  all_goals simp_all
  all_goals rw [← hf.2]

lemma iterFetchLive_warm (env : GstEnv) (st : AdapterState) (v : Html5Video)
    (h : st.livestreamer = some v) (n : Nat) :
    iterFetchLive env st n =
      .ok (st, List.replicate n (.ok (some (.html5 v)))) := by
  induction n with
  | zero => simp [iterFetchLive]
  | succ n ih =>
    simp [iterFetchLive, fetchOne_warm env st v h, ih, List.replicate_succ]

lemma fetch_values_indep (env : GstEnv) :
    ∀ (ids : List String) (stA st st1 : AdapterState)
      (out : List (String × Except Error (Option Value))),
    st.recorder = stA.recorder →
    (idLive ∈ ids → st.livestreamer = stA.livestreamer) →
    ids.Pairwise (fun a b => a ≠ b) →
    fetch_values env st ids = .ok (st1, out) →
    List.Forall₂
      (fun id e => e.1 = id ∧ ∃ s2, fetchOne env stA id = .ok (s2, e))
      ids out := by
  intro ids
  induction ids with
  | nil =>
    intro stA st st1 out _ _ _ hf
    rw [fetch_values] at hf
    simp at hf
    rw [hf.2]
    exact List.Forall₂.nil
  | cons id rest ih =>
    intro stA st st1 out hrec hlive hpw hf
    cases hpw with
    | cons hhead htail =>
      rw [fetch_values] at hf
      cases h1 : fetchOne env st id with
      | panic m => simp [h1] at hf
      | ok p =>
        obtain ⟨stm, entry⟩ := p
        simp only [h1] at hf
        cases h2 : fetch_values env stm rest with
        | panic m => simp [h2] at hf
        | ok q =>
          obtain ⟨st2, outr⟩ := q
          simp only [h2] at hf
          simp at hf
          obtain ⟨hst, hout⟩ := hf
          rw [← hout]
          refine List.Forall₂.cons ⟨fetchOne_fst env st id h1, ?_⟩ ?_
          · by_cases hid : id = idLive
            · subst hid
              exact fetchOne_live_congr env st stA
                (hlive (List.mem_cons_self idLive rest)) h1
            · by_cases hidr : id = idRecord
              · subst hidr
                rw [fetchOne_record env st] at h1
                simp at h1
                refine ⟨stA, ?_⟩
                rw [fetchOne_record env stA, ← h1.2, hrec]
              · rw [fetchOne_unknown env st id hid hidr] at h1
                simp at h1
                refine ⟨stA, ?_⟩
                rw [fetchOne_unknown env stA id hid hidr, ← h1.2]
          · refine ih stA stm st2 outr
              ((fetchOne_recorder_eq env st id h1).trans hrec) ?_ htail h2
            intro hmem
            have hid2 : id ≠ idLive := hhead idLive hmem
            rw [fetchOne_nonlive_state env st id hid2 h1]
            exact hlive (List.mem_cons_of_mem id hmem)

lemma send_values_indep (env : GstEnv) (root : String) :
    ∀ (kvs : List (String × Value)) (stA st st1 : AdapterState)
      (out : List (String × Except Error Unit)),
    (idRecord ∈ kvs.map Prod.fst → st.recorder = stA.recorder) →
    (kvs.map Prod.fst).Pairwise (fun a b => a ≠ b) →
    send_values env root st kvs = .ok (st1, out) →
    List.Forall₂
      (fun kv e => e.1 = kv.1 ∧ ∃ s2, sendOne env root stA kv.1 kv.2 = .ok (s2, e))
      kvs out := by
  intro kvs
  induction kvs with
  | nil =>
    intro stA st st1 out _ _ hf
    rw [send_values] at hf
    simp at hf
    rw [hf.2]
    exact List.Forall₂.nil
  | cons kv rest ih =>
    intro stA st st1 out hrec hpw hf
    rw [List.map_cons] at hpw
    cases hpw with
    | cons hhead htail =>
      rw [send_values] at hf
      cases h1 : sendOne env root st kv.1 kv.2 with
      | panic m => simp [h1] at hf
      | ok p =>
        obtain ⟨stm, entry⟩ := p
        simp only [h1] at hf
        cases h2 : send_values env root stm rest with
        | panic m => simp [h2] at hf
        | ok q =>
          obtain ⟨st2, outr⟩ := q
          simp only [h2] at hf
          simp at hf
          obtain ⟨hst, hout⟩ := hf
          rw [← hout]
          refine List.Forall₂.cons ⟨sendOne_fst env root st kv.1 kv.2 h1, ?_⟩ ?_
          · by_cases hid : kv.1 = idRecord
            · have hr : st.recorder = stA.recorder := by
                refine hrec ?_
                rw [List.map_cons, hid]
                exact List.mem_cons_self idRecord (rest.map Prod.fst)
              rw [hid] at h1
              obtain ⟨s2, hs2⟩ := sendOne_record_congr env root st stA kv.2 hr h1
              exact ⟨s2, by rw [← hid] at hs2; exact hs2⟩
            · rw [sendOne_unknown env root st kv.1 kv.2 hid] at h1
              simp at h1
              refine ⟨stA, ?_⟩
              rw [sendOne_unknown env root stA kv.1 kv.2 hid, ← h1.2]
          · refine ih stA stm st2 outr ?_ htail h2
            intro hmem
            have hid2 : kv.1 ≠ idRecord := hhead idRecord hmem
            rw [sendOne_nonrecord_state env root st kv.1 kv.2 hid2 h1]
            refine hrec ?_
            rw [List.map_cons]
            exact List.mem_cons_of_mem kv.1 hmem

/-! ## Claim theorems -/

/-- Claim C1 (amended): when recording is on (the recorder slot holds a
pipeline handle), a setOff request clears the recording slot to Off,
invokes stop (`set_null_state`) on the taken handle exactly once, but
discards the result of that stop call and returns success to the caller
unconditionally — a termination failure is not reported to the caller,
while the state has still moved to Off.  The theorem quantifies over
every environment, hence over every possible outcome of `setNullState`,
so the returned entry is `Ok(())` whatever the stop call reports. -/
theorem c1_amended (env : GstEnv) (root : String) (st : AdapterState)
    (p : Nat) (h : st.recorder = some p) :
    sendOne env root st idRecord (Value.onOff OnOff.off) =
      .ok ({ st with recorder := none, stopCalls := st.stopCalls + 1 },
           (idRecord, .ok ())) := by
  simp [sendOne, Value.cast, h]

/-- Claim C1 counterexample: with a gst oracle whose `set_null_state`
reports a failure, a setOff request while recording on pipeline handle 7
still returns `Ok(())` — the result of the stop call is not returned to
the caller, refuting the claim as stated at this concrete input. -/
theorem c1_counterexample :
    sendOne envStopFail "/r" stRec idRecord (Value.onOff OnOff.off) =
        .ok ({ stRec with recorder := none, stopCalls := 1 },
             (idRecord, .ok ())) ∧
      envStopFail.setNullState 7 = .error (.internalError "stop failed") ∧
      (Except.ok () : Except Error Unit) ≠
        .error (.internalError "stop failed") := by
  refine ⟨rfl, rfl, ?_⟩
  simp

/-- Witness for C1 (amended) at a concrete recording state and a failing
stop oracle. -/
theorem c1_witness :
    stRec.recorder = some 7 ∧
      sendOne envStopFail "/r" stRec idRecord (Value.onOff OnOff.off) =
        .ok ({ stRec with recorder := none, stopCalls := stRec.stopCalls + 1 },
             (idRecord, .ok ())) :=
  ⟨rfl, c1_amended envStopFail "/r" stRec 7 rfl⟩

/-- Claim C2 (amended): if the backend pipeline cannot be constructed from
the specification string, or the bus cannot be extracted from it, the
requesting operation (live fetch or recording setOn) panics — crashes the
requesting thread via `unwrap`/`expect` — instead of returning a
`BackendStartupFailed` error to the caller. -/
theorem c2_amended :
    (∀ (env : GstEnv) (st : AdapterState),
       env.newFromStr liveSpec = none → st.livestreamer = none →
       fetchOne env st idLive =
         .panic "called Option::unwrap() on a None value") ∧
    (∀ (env : GstEnv) (st : AdapterState) (p : Nat),
       env.newFromStr liveSpec = some p → env.busOf p = none →
       st.livestreamer = none →
       fetchOne env st idLive =
         .panic "[sentry] Couldn't extract bus from pipeline") ∧
    (∀ (env : GstEnv) (root : String) (st : AdapterState),
       env.newFromStr (recordSpec root) = none → st.recorder = none →
       sendOne env root st idRecord (Value.onOff OnOff.on) =
         .panic "called Option::unwrap() on a None value") ∧
    (∀ (env : GstEnv) (root : String) (st : AdapterState) (p : Nat),
       env.newFromStr (recordSpec root) = some p → env.busOf p = none →
       st.recorder = none →
       sendOne env root st idRecord (Value.onOff OnOff.on) =
         .panic "[sentry] Couldn't extract bus from pipeline") := by
  refine ⟨?_, ?_, ?_, ?_⟩
  · intro env st hn hl
    simp [fetchOne, Html5Video.new, hl, hn]
  · intro env st p hn hb hl
    simp [fetchOne, Html5Video.new, hl, hn, hb]
  · intro env root st hn hr
    simp [sendOne, Value.cast, hr, hn]
  · intro env root st p hn hb hr
    simp [sendOne, Value.cast, hr, hn, hb]

/-- Claim C2 counterexample: at concrete oracles where pipeline
construction (respectively bus extraction) fails, both the live fetch and
the recording setOn panic — no `BackendStartupFailed` error value is ever
returned to the caller, refuting the claim as stated. -/
theorem c2_counterexample :
    fetchOne envNoPipeline st0 idLive =
        .panic "called Option::unwrap() on a None value" ∧
      sendOne envNoPipeline "/r" st0 idRecord (Value.onOff OnOff.on) =
        .panic "called Option::unwrap() on a None value" ∧
      sendOne envNoBus "/r" st0 idRecord (Value.onOff OnOff.on) =
        .panic "[sentry] Couldn't extract bus from pipeline" :=
  ⟨rfl, rfl, rfl⟩

/-- Witness for C2 (amended) at concrete failing oracles. -/
theorem c2_witness :
    fetchOne envNoPipeline st0 idLive =
        .panic "called Option::unwrap() on a None value" ∧
      sendOne envNoBus "/r" st0 idRecord (Value.onOff OnOff.on) =
        .panic "[sentry] Couldn't extract bus from pipeline" :=
  ⟨c2_amended.1 envNoPipeline st0 rfl rfl,
   c2_amended.2.2.2 envNoBus "/r" st0 0 rfl rfl rfl⟩

/-- Claim C3: whenever a descriptor is already cached, a live fetch
returns exactly the cached descriptor (hence an identical `port` field)
and leaves the state — including the engine-start counter — unchanged;
and across any sequence of n+1 successful live fetches starting from a
cold session, the engine-start path runs exactly once and every fetch
returns the same descriptor. -/
theorem c3_descriptor_reuse :
    (∀ (env : GstEnv) (st : AdapterState) (v : Html5Video),
       st.livestreamer = some v →
       fetchOne env st idLive = .ok (st, (idLive, .ok (some (.html5 v))))) ∧
    (∀ (env : GstEnv) (st st1 : AdapterState) (n : Nat)
       (outs : List (Except Error (Option Value))),
       st.livestreamer = none →
       iterFetchLive env st (n + 1) = .ok (st1, outs) →
       st1.liveStarts = st.liveStarts + 1 ∧
         ∃ v, st1.livestreamer = some v ∧
           outs = List.replicate (n + 1) (.ok (some (.html5 v)))) := by
  constructor
  · exact fetchOne_warm
  · intro env st st1 n outs hl hiter
    rcases new_panic_or_ok env with ⟨m, hm⟩ | ⟨v, hv⟩
    · simp [iterFetchLive, fetchOne, hl, hm] at hiter
    · have h1 : fetchOne env st idLive =
          .ok ({ st with livestreamer := some v, liveStarts := st.liveStarts + 1 },
               (idLive, .ok (some (.html5 v)))) := by
        simp [fetchOne, hl, hv]
      have hW := iterFetchLive_warm env
        { st with livestreamer := some v, liveStarts := st.liveStarts + 1 } v rfl n
      simp only [iterFetchLive, h1, hW] at hiter
      simp at hiter
      obtain ⟨hst, houts⟩ := hiter
      refine ⟨?_, v, ?_, ?_⟩
      · rw [← hst]
      · rw [← hst]
      · rw [← houts, List.replicate_succ]

/-- Witness for C3: a warm fetch under a healthy oracle, and a sequence of
two fetches from the cold state starting the engine exactly once. -/
theorem c3_witness :
    (fetchOne envOk stLive idLive =
        .ok (stLive, (idLive, .ok (some (.html5 { port := 5004 }))))) ∧
      (stLive.liveStarts = st0.liveStarts + 1 ∧
        ∃ v, stLive.livestreamer = some v ∧
          ([Except.ok (some (Value.html5 { port := 5004 })),
            Except.ok (some (Value.html5 { port := 5004 }))] :
              List (Except Error (Option Value))) =
            List.replicate (1 + 1) (Except.ok (some (Value.html5 v)))) :=
  ⟨c3_descriptor_reuse.1 envOk stLive { port := 5004 } rfl,
   c3_descriptor_reuse.2 envOk st0 stLive 1
     [Except.ok (some (Value.html5 { port := 5004 })),
      Except.ok (some (Value.html5 { port := 5004 }))] rfl rfl⟩

/-- Claim C4: if the recording state already holds a handle, a setOn
request returns success immediately with the state — including the
engine-start counter — unchanged; and after any successful setOn, a
second setOn returns success without changing the state, the two calls
together having started at most one engine. -/
theorem c4_idempotent_on :
    (∀ (env : GstEnv) (root : String) (st : AdapterState) (p : Nat),
       st.recorder = some p →
       sendOne env root st idRecord (Value.onOff OnOff.on) =
         .ok (st, (idRecord, .ok ()))) ∧
    (∀ (env : GstEnv) (root : String) (st st1 : AdapterState)
       (e1 : String × Except Error Unit),
       sendOne env root st idRecord (Value.onOff OnOff.on) = .ok (st1, e1) →
       sendOne env root st1 idRecord (Value.onOff OnOff.on) =
           .ok (st1, (idRecord, .ok ())) ∧
         st1.recordStarts ≤ st.recordStarts + 1) := by
  constructor
  · intro env root st p h
    simp [sendOne, Value.cast, h]
  · intro env root st st1 e1 h
    have key : (∃ q, st1.recorder = some q) ∧
        st1.recordStarts ≤ st.recordStarts + 1 := by
      cases hr : st.recorder with
      | some p =>
        simp [sendOne, Value.cast, hr] at h
        rw [← h.1]
        exact ⟨⟨p, hr⟩, Nat.le_succ _⟩
      | none =>
        cases hn : env.newFromStr (recordSpec root) with
        | none => simp [sendOne, Value.cast, hr, hn] at h
        | some p =>
          cases hb : env.busOf p with
          | none => simp [sendOne, Value.cast, hr, hn, hb] at h
          | some b =>
            simp [sendOne, Value.cast, hr, hn, hb] at h
            rw [← h.1]
            exact ⟨⟨p, rfl⟩, Nat.le_refl _⟩
    obtain ⟨⟨q, hq⟩, hle⟩ := key
    exact ⟨by simp [sendOne, Value.cast, hq], hle⟩

/-- Witness for C4: a setOn while already recording, and a second setOn
after a successful cold start under a healthy oracle. -/
theorem c4_witness :
    (sendOne envOk "/r" stRec idRecord (Value.onOff OnOff.on) =
        .ok (stRec, (idRecord, .ok ()))) ∧
      (sendOne envOk "/r" stRecOk idRecord (Value.onOff OnOff.on) =
          .ok (stRecOk, (idRecord, .ok ())) ∧
        stRecOk.recordStarts ≤ st0.recordStarts + 1) :=
  ⟨c4_idempotent_on.1 envOk "/r" stRec 7 rfl,
   c4_idempotent_on.2 envOk "/r" st0 stRecOk (idRecord, .ok ()) rfl⟩

/-- Claim C5: if the recording state is Off (empty recorder slot), a
setOff request returns success and leaves the state — including the
stop-call counter — unchanged: no engine-stop call is performed and the
state stays Off. -/
theorem c5_idempotent_off (env : GstEnv) (root : String) (st : AdapterState)
    (h : st.recorder = none) :
    sendOne env root st idRecord (Value.onOff OnOff.off) =
      .ok (st, (idRecord, .ok ())) := by
  simp [sendOne, Value.cast, h]

/-- Witness for C5 at the initial (Off) state. -/
theorem c5_witness :
    st0.recorder = none ∧
      sendOne envOk "/r" st0 idRecord (Value.onOff OnOff.off) =
        .ok (st0, (idRecord, .ok ())) :=
  ⟨rfl, c5_idempotent_off envOk "/r" st0 rfl⟩

/-- Claim C6: for batch fetch and batch send over pairwise-distinct
channel ids, the non-panicking result list has exactly one entry per
input entry, in input order and keyed by the input id (the `Forall₂`
statements), and each entry equals the entry that the corresponding
single-id request would produce from the initial state — so no entry
(failing or not) changes another entry result; and every id other than
the live-stream and recording ids maps to `OperationNotSupported`. -/
theorem c6_batch_routing :
    (∀ (env : GstEnv) (st st1 : AdapterState) (ids : List String)
       (out : List (String × Except Error (Option Value))),
       ids.Pairwise (fun a b => a ≠ b) →
       fetch_values env st ids = .ok (st1, out) →
       List.Forall₂
         (fun id e => e.1 = id ∧ ∃ s2, fetchOne env st id = .ok (s2, e))
         ids out) ∧
    (∀ (env : GstEnv) (root : String) (st st1 : AdapterState)
       (kvs : List (String × Value)) (out : List (String × Except Error Unit)),
       (kvs.map Prod.fst).Pairwise (fun a b => a ≠ b) →
       send_values env root st kvs = .ok (st1, out) →
       List.Forall₂
         (fun kv e => e.1 = kv.1 ∧
            ∃ s2, sendOne env root st kv.1 kv.2 = .ok (s2, e))
         kvs out) ∧
    (∀ (env : GstEnv) (st : AdapterState) (id : String),
       id ≠ idLive → id ≠ idRecord →
       fetchOne env st id =
         .ok (st, (id, .error (.operationNotSupported .fetch id)))) ∧
    (∀ (env : GstEnv) (root : String) (st : AdapterState) (id : String)
       (v : Value), id ≠ idRecord →
       sendOne env root st id v =
         .ok (st, (id, .error (.operationNotSupported .send id)))) := by
  refine ⟨?_, ?_, ?_, ?_⟩
  · intro env st st1 ids out hpw hf
    exact fetch_values_indep env ids st st st1 out rfl (fun _ => rfl) hpw hf
  · intro env root st st1 kvs out hpw hf
    exact send_values_indep env root kvs st st st1 out (fun _ => rfl) hpw hf
  · exact fetchOne_unknown
  · exact sendOne_unknown

/-- Witness for C6: a two-id batch fetch (live id plus an unknown id)
produces exactly two entries, the unknown one `OperationNotSupported`. -/
theorem c6_witness :
    List.Forall₂
      (fun id e => e.1 = id ∧ ∃ s2, fetchOne envOk st0 id = .ok (s2, e))
      [idLive, "no-such-channel"]
      [(idLive, .ok (some (.html5 { port := 5004 }))),
       ("no-such-channel",
        .error (.operationNotSupported .fetch "no-such-channel"))] :=
  c6_batch_routing.1 envOk st0 stLive [idLive, "no-such-channel"]
    [(idLive, .ok (some (.html5 { port := 5004 }))),
     ("no-such-channel",
      .error (.operationNotSupported .fetch "no-such-channel"))]
    (by decide) rfl

/-- Claim C7: a value sent to the recording channel that does not decode
to the On/Off enumeration (here: any descriptor payload, the only
non-OnOff payload in the model) yields a type-mismatch error for that
entry and leaves the state — recorder slot and all counters — unchanged:
no engine is started or stopped. -/
theorem c7_type_mismatch (env : GstEnv) (root : String) (st : AdapterState)
    (w : Html5Video) :
    sendOne env root st idRecord (Value.html5 w) =
      .ok (st, (idRecord, .error (.valueTypeMismatch "OnOff"))) := by
  simp [sendOne, Value.cast]

/-- Claim C8: serialization of any descriptor with a u16 port succeeds and
produces exactly the JSON object with the single field `port` holding the
port number, and parsing fails on every input with the type-mismatch
parse error — deserialization from external input is impossible. -/
theorem c8_serialization (v : Html5Video) (path : String) (j : JSON)
    (h : v.port < 65536) :
    Html5Video.serialize v () = .ok (.obj [("port", .u64 v.port)]) ∧
      Html5Video.parse path j () =
        .error (.parseError "Html5 video stream (for testing purposes only)"
          path "A value that supports deserialization") := by
  constructor
  · unfold Html5Video.serialize
    rw [Nat.mod_eq_of_lt (lt_trans h (by norm_num))]
  · rfl

/-- Witness for C8 at port 5004 and an arbitrary JSON input. -/
theorem c8_witness :
    Html5Video.serialize { port := 5004 } () =
        .ok (.obj [("port", .u64 5004)]) ∧
      Html5Video.parse "field" (JSON.u64 0) () =
        .error (.parseError "Html5 video stream (for testing purposes only)"
          "field" "A value that supports deserialization") :=
  c8_serialization { port := 5004 } "field" (JSON.u64 0) (by norm_num)

/-- Claim C9: the descriptor equality test returns false for every pair of
descriptors, identical ports and self-comparison included — no two
descriptor instances are ever considered equal. -/
theorem c9_never_equal (x y : Html5Video) :
    Html5Video.eq x y = false ∧ Html5Video.eq x x = false :=
  ⟨rfl, rfl⟩

/-- Claim C10: `Html5Video::new` never returns an `Err` value — it either
panics (pipeline construction, bus extraction, sink lookup or the port
read-back channel) or returns `Ok` — so the error-propagation branch of
the live fetch is unreachable and the only non-diverging outcome of a
live fetch is a successful descriptor. -/
theorem c10_new_never_errs :
    (∀ env : GstEnv, (∃ m, Html5Video.new env = .panic m) ∨
       (∃ v, Html5Video.new env = .ok (.ok v))) ∧
    (∀ (env : GstEnv) (e : Error), Html5Video.new env ≠ .ok (.error e)) ∧
    (∀ (env : GstEnv) (st st1 : AdapterState)
       (r : Except Error (Option Value)),
       fetchOne env st idLive = .ok (st1, (idLive, r)) → ∃ ov, r = .ok ov) := by
  refine ⟨new_panic_or_ok, ?_, ?_⟩
  · intro env e h
    rcases new_panic_or_ok env with ⟨m, hm⟩ | ⟨v, hv⟩
    · rw [hm] at h
      exact PRes.noConfusion h
    · rw [hv] at h
      simp at h
  · intro env st st1 r hf
    cases hl : st.livestreamer with
    | some v =>
      rw [fetchOne_warm env st v hl] at hf
      simp at hf
      exact ⟨some (.html5 v), hf.2.symm⟩
    | none =>
      rcases new_panic_or_ok env with ⟨m, hm⟩ | ⟨v, hv⟩
      · simp [fetchOne, hl, hm] at hf
      · simp [fetchOne, hl, hv] at hf
        exact ⟨some (.html5 v), hf.2.symm⟩

/-- Witness for C10: a successful live fetch under a healthy oracle, whose
result is forced to be a success value. -/
theorem c10_witness :
    fetchOne envOk st0 idLive =
        .ok (stLive, (idLive, .ok (some (.html5 { port := 5004 })))) ∧
      ∃ ov, (Except.ok (some (Value.html5 { port := 5004 })) :
        Except Error (Option Value)) = .ok ov :=
  ⟨rfl, c10_new_never_errs.2.2 envOk st0 stLive
    (.ok (some (.html5 { port := 5004 }))) rfl⟩
